import Mathlib

/-!
Shallow embedding of the client-side real-time synchronization layer of
`src/frontend/src/App.tsx`: the topic-based event emitter, the
reconnecting websocket transport, the game-status poll, the `Home`
score subscriber (the game-session state machine) and the command
sender.  Each definition carries a pointer to the source lines it
embeds.
-/

namespace CountInOrder

/-- Observable side effects performed by the handlers: full-page or
SPA navigation (`window.location` assignments), the cosmetic palette
change (`updateColors()`), and scheduling of a reconnect timer
(`setTimeout(connectWebSocket, delayMs)`). -/
inductive Effect where
  | navigate (path : String)
  | updateColors
  | scheduleRetry (delayMs : Nat)
  deriving DecidableEq, Repr

/-! ### Event bus (`createEventEmitter`, App.tsx lines 103-129)

Callbacks are identified by natural numbers.  The `listeners` map
(topic string to insertion-ordered set of callbacks) is embedded as a
function from topic to a duplicate-free, insertion-ordered list; a
topic never registered maps to `[]`, which also models the
`listeners.has(event)` guard in `emit`. -/

def Registry : Type := String → List Nat

/-- `on` (App.tsx lines 106-112): JS `Set.add` is a no-op when the
callback is already present, otherwise appends at the end (insertion
order). -/
def «on» (r : Registry) (t : String) (cb : Nat) : Registry :=
  fun s => if s = t then (if cb ∈ r t then r t else r t ++ [cb]) else r s

/-- `off` (App.tsx lines 114-118): JS `Set.delete`, a no-op when the
callback is absent. -/
def off (r : Registry) (t : String) (cb : Nat) : Registry :=
  fun s => if s = t then (r t).filter (fun x => x != cb) else r s

/-- One step model of JS `Set.forEach` over a set subject to
deletions performed by the visited callbacks themselves.  `action c x
= true` means that invoking callback `c` deletes callback `x` from
the topic currently being dispatched.  `removed` is the accumulated
deletion set: an element already removed before its visit is skipped,
exactly as `Set.forEach` skips values deleted prior to being
visited. -/
def dispatchAux (action : Nat → Nat → Bool) : List Nat → (Nat → Bool) → List Nat
  | [], _ => []
  | c :: rest, removed =>
    if removed c then dispatchAux action rest removed
    else c :: dispatchAux action rest (fun x => removed x || action c x)

/-- The list of callbacks actually invoked by
`listeners.get(event).forEach(cb => cb(data))` (App.tsx lines
120-126) when the callbacks may unsubscribe callbacks of the same
topic mid-dispatch. -/
def dispatch (action : Nat → Nat → Bool) (l : List Nat) : List Nat :=
  dispatchAux action l (fun _ => false)

/-- Passive callbacks: no callback unsubscribes anything during the
dispatch. -/
def noUnsub : Nat → Nat → Bool := fun _ _ => false

/-- `emit` (App.tsx lines 120-126): the callbacks invoked for topic
`t` are the dispatch over the registered set of `t`; other topics'
callbacks are never touched. -/
def emitRun (action : Nat → Nat → Bool) (r : Registry) (t : String) : List Nat :=
  dispatch action (r t)

/-! ### Reconnecting transport (`useWebsocket`, App.tsx lines 143-228)

The browser timer system is embedded explicitly: `active` is the set
of timer ids currently pending in the scheduler, `retryTimeouts` is
the `retryTimeoutsRef.current` array, and `nextTimer` is the id
`setTimeout` hands out next.  `websocket` is the (nullable) handle
`websocketRef.current`. -/

structure TransportState where
  websocket : Option Nat
  retryTimeouts : List Nat
  active : List Nat
  nextTimer : Nat
  isLoading : Bool
  deriving DecidableEq, Repr

/-- The retry timers still pending: active timers recorded in
`retryTimeoutsRef.current`. -/
def pendingRetries (st : TransportState) : List Nat :=
  st.active.filter (fun id => st.retryTimeouts.contains id)

/-- `handleOpen` (App.tsx lines 148-154): clears `isLoading` and
calls `clearTimeout` on every handle in `retryTimeoutsRef.current`
(cancelling them in the scheduler); note the array itself is not
emptied by this handler. -/
def handleOpen (st : TransportState) : TransportState :=
  { st with
    isLoading := false
    active := st.active.filter (fun id => !st.retryTimeouts.contains id) }

/-- `handleClose` (App.tsx lines 156-183).  On close code 1008 it
assigns `window.location.href = '/auth/guest'`; there is no early
return, so execution continues for every code: the dead handle is
detached and nulled, every previously scheduled retry timeout is
cleared, the array is reset, and one new 1500 ms retry is scheduled
and recorded. -/
def handleClose (code : Nat) (st : TransportState) : TransportState × List Effect :=
  let redirectEffects := if code = 1008 then [Effect.navigate "/auth/guest"] else []
  let remaining := st.active.filter (fun id => !st.retryTimeouts.contains id)
  ({ websocket := none
     retryTimeouts := [st.nextTimer]
     active := remaining ++ [st.nextTimer]
     nextTimer := st.nextTimer + 1
     isLoading := st.isLoading },
   redirectEffects ++ [Effect.scheduleRetry 1500])

/-! ### Game-status poll (`useVerifyGameIsOngoing`, App.tsx lines 230-289) -/

/-- `updatedGameStatus` (App.tsx lines 237-250), with times in
milliseconds as integers: when `ended_at` is non-null and `now >=
endedAtTime`, the game is marked not ongoing and the page navigates
to `/game-over`; otherwise the game is marked ongoing. -/
def updatedGameStatus (gameEndedAt : Option Int) (now : Int) : Bool × List Effect :=
  match gameEndedAt with
  | some e => if now ≥ e then (false, [Effect.navigate "/game-over"]) else (true, [])
  | none => (true, [])

/-- The poll period of the `setInterval` at App.tsx lines 255-257. -/
def pollIntervalMs : Int := 500

/-- Wall-clock time of the k-th firing of the poll interval started
at time `s` (the first firing occurs one period after start). -/
def pollTick (s : Int) (k : Nat) : Int := s + pollIntervalMs * (k + 1)

/-! ### The `Home` score subscriber (App.tsx lines 815-849)

Inbound message envelopes, after JSON parsing, as a tagged union on
`type`.  The types listed in the external interface but not handled
by the subscriber's `switch` get their own constructors; any other
tag is `other`. -/

inductive Msg where
  | updateCount (value : Int)
  | gameOver
  | verified
  | verificationRequired
  | initial (value highScore : Int)
  | failed (value : Int)
  | countUpdated (value : Int)
  | other (tag : String)
  deriving DecidableEq, Repr

/-- A raw websocket payload: either valid JSON denoting a message, or
a malformed string. -/
inductive Raw where
  | json (m : Msg)
  | malformed (s : String)
  deriving DecidableEq, Repr

/-- `JSON.parse` on the raw payload: throws (models `Except.error`)
on malformed input. -/
def jsonParse : Raw → Except String Msg
  | .json m => .ok m
  | .malformed s => .error s

/-- The state held by `Home` that the subscriber mutates: `number`
(`useState<number | null>`, the authoritative `currentNumber`) and
`isVerificationRequired`. -/
structure HomeState where
  number : Option Int
  isVerificationRequired : Bool
  deriving DecidableEq, Repr

/-- The `switch (parsedData.type)` body (App.tsx lines 819-845).
`update-count`: `isFirstRequest` is `number === null`; when the value
is a multiple of 10 (JS `%` is truncated remainder, `Int.tmod`) or
equals 1 and this is not the first update, `updateColors()` runs;
then `number` is set.  `game-over` navigates.  `verified` /
`verification-required` toggle the flag.  All other message types
fall through the switch unchanged. -/
def handleParsed (s : HomeState) : Msg → HomeState × List Effect
  | .updateCount v =>
    let isFirstRequest := s.number.isNone
    let effs :=
      if (v.tmod 10 == 0 || v == 1) && !isFirstRequest then [Effect.updateColors] else []
    ({ s with number := some v }, effs)
  | .gameOver => (s, [Effect.navigate "/game-over"])
  | .verified => ({ s with isVerificationRequired := false }, [])
  | .verificationRequired => ({ s with isVerificationRequired := true }, [])
  | .initial _ _ => (s, [])
  | .failed _ => (s, [])
  | .countUpdated _ => (s, [])
  | .other _ => (s, [])

/-- The whole subscriber callback (App.tsx lines 816-846):
`JSON.parse(data)` runs with no surrounding try/catch, so a parse
failure propagates out of the callback. -/
def scoreSubscriber (s : HomeState) (raw : Raw) : Except String (HomeState × List Effect) :=
  match jsonParse raw with
  | .error e => .error e
  | .ok m => .ok (handleParsed s m)

/-- Folding the subscriber's state updates over a list of
well-formed messages delivered in order. -/
def runMsgs (s : HomeState) : List Msg → HomeState
  | [] => s
  | m :: rest => runMsgs (handleParsed s m).1 rest

/-! ### Command sender (`handleSubmit` / `sendMessage`, App.tsx lines 185-187 and 866-878) -/

/-- Digits-to-value accumulator for the model of JS `Number()`. -/
def digitsToNat (cs : List Char) : Option Nat :=
  cs.foldl
    (fun acc c =>
      match acc with
      | none => none
      | some n => if c.isDigit then some (n * 10 + (c.toNat - 48)) else none)
    (some 0)

/-- Model of the JS `Number()` conversion used at App.tsx line 868,
restricted to optional-sign decimal integer strings; any other input
is `none`, standing for `NaN` (the source performs no validation — a
TODO comment in the code). -/
def jsNumber (input : String) : Option Int :=
  match input.data with
  | '-' :: rest => (digitsToNat rest).map (fun n => -(n : Int))
  | cs => (digitsToNat cs).map (fun n => (n : Int))

/-- The serialized outbound envelope
`JSON.stringify(\x7b type: 'update-count', value \x7d)`; `none` as
value models `NaN` (serialized as `null`). Serialization is
injective, so the envelope is kept structurally. -/
inductive OutMsg where
  | updateCount (value : Option Int)
  deriving DecidableEq, Repr

/-- `sendMessage` (App.tsx lines 185-187):
`websocketRef.current?.send(data)` — optional chaining makes the send
a silent no-op when the handle is null; there is no buffer and no
retry.  Returns the list of (handle, payload) pairs actually sent. -/
def sendMessage (ws : Option Nat) (data : OutMsg) : List (Nat × OutMsg) :=
  match ws with
  | some w => [(w, data)]
  | none => []

/-- `handleSubmit` (App.tsx lines 866-878): converts the input with
`Number()`, sends the serialized `update-count` envelope through
`sendMessage`, and clears the input field.  Returns the sent
messages and the new input-field contents. -/
def handleSubmit (ws : Option Nat) (input : String) : List (Nat × OutMsg) × String :=
  let numberValue := jsNumber input
  (sendMessage ws (OutMsg.updateCount numberValue), "")

/-- A concrete registry: callback 7 registered only under topic
`other`. -/
def rWitness : Registry := fun s => if s = "other" then [7] else []

/-- A concrete mid-dispatch mutation: callback 1, when invoked,
unsubscribes callback 2 from the topic being dispatched. -/
def unsubAction : Nat → Nat → Bool := fun c x => c == 1 && x == 2

/-! ## Theorems -/

/-- Claim C1 (code bug at the concrete failing input): the close
handler for code 1008 performs the redirect to the guest-auth entry
point, but — since nothing returns early — it also schedules a fresh
1.5 s reconnect retry, so exactly one retry timer is pending after
the handler runs, contradicting the claim that none is. -/
theorem close1008_redirects_and_still_schedules_retry :
    (handleClose 1008 ⟨some 0, [], [], 0, true⟩).2
        = [Effect.navigate "/auth/guest", Effect.scheduleRetry 1500]
      ∧ pendingRetries (handleClose 1008 ⟨some 0, [], [], 0, true⟩).1 = [0] := by
  decide

/-- Claim C3: an `update-count` message sets `currentNumber` to the
received value, leaves the verification flag alone, and triggers the
palette change exactly when this is not the first update received
(`number` was already non-null) and the value is a multiple of 10 or
equals 1. -/
theorem updateCount_sets_number_and_palette_iff (s : HomeState) (v : Int) :
    (handleParsed s (.updateCount v)).1.number = some v
      ∧ (handleParsed s (.updateCount v)).1.isVerificationRequired
          = s.isVerificationRequired
      ∧ (Effect.updateColors ∈ (handleParsed s (.updateCount v)).2
          ↔ s.number ≠ none ∧ (v.tmod 10 = 0 ∨ v = 1)) := by
  refine ⟨rfl, rfl, ?_⟩
  cases hn : s.number with
  | none => simp [handleParsed, hn]
  | some n =>
    by_cases hb : (v.tmod 10 == 0 || v == 1) = true
    · simp only [Bool.or_eq_true, beq_iff_eq] at hb
      simp [handleParsed, hn, hb]
    · simp only [Bool.or_eq_true, beq_iff_eq] at hb
      push_neg at hb
      simp [handleParsed, hn, hb]

/-- Claim C5, counterexample to the claim as stated: a malformed
payload is not caught — the subscriber propagates the `JSON.parse`
exception instead of returning normally. -/
theorem malformed_payload_escapes_cex :
    scoreSubscriber ⟨none, true⟩ (Raw.malformed "oops") = Except.error "oops"
      ∧ scoreSubscriber ⟨none, true⟩ (Raw.malformed "oops")
          ≠ Except.ok (⟨none, true⟩, []) := by
  constructor
  · rfl
  · intro h
    exact Except.noConfusion h

/-- Claim C5 (amended): for every state and malformed payload, the
`JSON.parse` failure escapes the subscriber uncaught; consequently no
state change is delivered. -/
theorem malformed_payload_error_propagates (s : HomeState) (payload : String) :
    scoreSubscriber s (Raw.malformed payload) = Except.error payload := rfl

/-- Claim C9: the submit path sends the serialized `update-count`
envelope with the parsed value through the transport when a handle is
present, and is a silent no-op (nothing sent, nothing buffered, no
error, input still cleared) when the handle is null. -/
theorem submit_send_connected_or_dropped (w : Nat) (input : String) :
    handleSubmit (some w) input
        = ([(w, OutMsg.updateCount (jsNumber input))], "")
      ∧ handleSubmit none input = ([], "") :=
  ⟨rfl, rfl⟩

/-- Claim C10: inbound message types without a `switch` case —
`initial`, `failed`, `count-updated`, and arbitrary unknown tags —
leave the subscriber state unchanged and perform no side effect. -/
theorem unhandled_message_types_frame (s : HomeState) (v h w : Int) (tag : String) :
    handleParsed s (.initial v h) = (s, [])
      ∧ handleParsed s (.failed v) = (s, [])
      ∧ handleParsed s (.countUpdated w) = (s, [])
      ∧ handleParsed s (.other tag) = (s, []) :=
  ⟨rfl, rfl, rfl, rfl⟩

/-- Claim C2, counterexample to the claim as stated: after receiving
`initial` with value 42 and high score 100, `currentNumber` is still
null — the subscriber has no `initial` case (and holds no high-score
state at all). -/
theorem initial_message_sets_nothing_cex :
    (runMsgs ⟨none, true⟩ [Msg.initial 42 100]).number = none
      ∧ (runMsgs ⟨none, true⟩ [Msg.initial 42 100]).number ≠ some 42 := by
  decide

/-- Processing a non-empty list of `update-count` messages leaves
`currentNumber` equal to the last value received. -/
theorem runMsgs_updateCount_last :
    ∀ (vs : List Int) (s : HomeState) (l : Int), vs.getLast? = some l →
      (runMsgs s (vs.map Msg.updateCount)).number = some l
  | [], _, _, h => by simp at h
  | [v], s, l, h => by
    rw [List.getLast?_singleton] at h
    cases h
    simp [runMsgs, handleParsed]
  | v :: v' :: rest, s, l, h => by
    rw [List.getLast?_cons_cons] at h
    simpa [runMsgs] using
      runMsgs_updateCount_last (v' :: rest) (handleParsed s (Msg.updateCount v)).1 l h

/-- Claim C2 (amended): the subscriber ignores `initial` messages and
maintains no high score; for a strictly increasing sequence of
`update-count` values following an `initial` message, `currentNumber`
equals the last value received. -/
theorem currentNumber_tracks_latest_update (v0 h0 : Int) (vs : List Int) (l : Int)
    (hl : vs.getLast? = some l) (_hmono : List.Chain' (· < ·) vs) :
    (runMsgs ⟨none, true⟩ (Msg.initial v0 h0 :: vs.map Msg.updateCount)).number
      = some l := by
  have hskip : runMsgs (⟨none, true⟩ : HomeState)
      (Msg.initial v0 h0 :: vs.map Msg.updateCount)
      = runMsgs ⟨none, true⟩ (vs.map Msg.updateCount) := by
    simp [runMsgs, handleParsed]
  rw [hskip]
  exact runMsgs_updateCount_last vs _ l hl

/-- Concrete witness for the amended Claim C2. -/
theorem currentNumber_tracks_latest_update_witness :
    ([43, 44] : List Int).getLast? = some 44
      ∧ List.Chain' (· < ·) ([43, 44] : List Int)
      ∧ (runMsgs ⟨none, true⟩
          (Msg.initial 42 100 :: ([43, 44] : List Int).map Msg.updateCount)).number
        = some 44 :=
  ⟨by decide, by norm_num [List.chain'_cons],
    currentNumber_tracks_latest_update 42 100 [43, 44] 44 (by decide)
      (by norm_num [List.chain'_cons])⟩

/-- Filtering by a predicate after keeping only its complement
yields nothing. -/
theorem filter_not_filter (p : Nat → Bool) (l : List Nat) :
    (l.filter (fun x => !p x)).filter p = [] := by
  simp only [List.filter_filter]
  have : ∀ x, (p x && !p x) = false := fun x => by cases p x <;> rfl
  simp [this]

/-- Opening a connection cancels every timer recorded in
`retryTimeoutsRef.current`, so no retry timer is pending on an open
connection, whatever the prior state. -/
theorem pendingRetries_handleOpen (st : TransportState) :
    pendingRetries (handleOpen st) = [] := by
  simp only [pendingRetries, handleOpen]
  exact filter_not_filter _ _

/-- Claim C4: every close (the claim restricts to non-1008 codes)
cancels all previously scheduled retry timers and leaves exactly the
freshly scheduled 1.5 s retry pending; old retry handles are gone
from the scheduler, and an open right after the close cancels the
pending retry as well. -/
theorem retry_discipline (st : TransportState) (code : Nat)
    (hact : ∀ id ∈ st.active, id < st.nextTimer)
    (hret : ∀ id ∈ st.retryTimeouts, id < st.nextTimer)
    (hcode : code ≠ 1008) :
    pendingRetries (handleClose code st).1 = [st.nextTimer]
      ∧ ((handleClose code st).1.active.filter
          (fun id => st.retryTimeouts.contains id)) = []
      ∧ (handleClose code st).2 = [Effect.scheduleRetry 1500]
      ∧ pendingRetries (handleOpen (handleClose code st).1) = [] := by
  refine ⟨?_, ?_, ?_, pendingRetries_handleOpen _⟩
  · simp only [pendingRetries, handleClose, List.filter_append]
    have h1 : (st.active.filter (fun id => !st.retryTimeouts.contains id)).filter
        (fun id => ([st.nextTimer] : List Nat).contains id) = [] := by
      rw [List.filter_eq_nil_iff]
      intro a ha
      have haa : a < st.nextTimer := hact a (List.mem_filter.mp ha).1
      simp only [List.contains_cons, List.contains_nil, Bool.or_false, beq_iff_eq]
      omega
    rw [h1]
    simp
  · simp only [handleClose, List.filter_append]
    have h2 : ([st.nextTimer] : List Nat).filter
        (fun id => st.retryTimeouts.contains id) = [] := by
      have hn : st.nextTimer ∉ st.retryTimeouts := by
        intro hmem
        exact absurd (hret _ hmem) (by omega)
      simp [List.filter, hn]
    rw [filter_not_filter, h2]
    rfl
  · simp [handleClose, hcode]

/-- Concrete witness for Claim C4: a state with one stale pending
retry timer, closed with the ordinary code 1006. -/
theorem retry_discipline_witness :
    (∀ id ∈ ([5] : List Nat), id < 6)
      ∧ (1006 : Nat) ≠ 1008
      ∧ (pendingRetries (handleClose 1006 ⟨some 0, [5], [5], 6, false⟩).1 = [6]
          ∧ ((handleClose 1006 ⟨some 0, [5], [5], 6, false⟩).1.active.filter
              (fun id => ([5] : List Nat).contains id)) = []
          ∧ (handleClose 1006 ⟨some 0, [5], [5], 6, false⟩).2
              = [Effect.scheduleRetry 1500]
          ∧ pendingRetries
              (handleOpen (handleClose 1006 ⟨some 0, [5], [5], 6, false⟩).1) = []) :=
  ⟨by decide, by decide,
    retry_discipline ⟨some 0, [5], [5], 6, false⟩ 1006 (by decide) (by decide)
      (by decide)⟩

/-- The dispatch only ever visits callbacks that were in the set when
the publish began, in their original order. -/
theorem dispatchAux_sublist (action : Nat → Nat → Bool) :
    ∀ (l : List Nat) (removed : Nat → Bool),
      List.Sublist (dispatchAux action l removed) l
  | [], _ => by simp [dispatchAux]
  | c :: rest, removed => by
    rw [dispatchAux]
    by_cases h : removed c = true
    · rw [if_pos h]
      exact List.Sublist.cons c (dispatchAux_sublist action rest removed)
    · rw [if_neg h]
      exact List.Sublist.cons₂ c (dispatchAux_sublist action rest _)

/-- A callback in the set that is neither already removed nor
unsubscribed by any callback is invoked by the dispatch. -/
theorem dispatchAux_mem (action : Nat → Nat → Bool) :
    ∀ (l : List Nat) (removed : Nat → Bool) (c : Nat),
      c ∈ l → removed c = false → (∀ d, action d c = false) →
      c ∈ dispatchAux action l removed
  | [], _, c, hmem, _, _ => absurd hmem (List.not_mem_nil c)
  | c' :: rest, removed, c, hmem, hrem, hact => by
    rw [dispatchAux]
    by_cases h : removed c' = true
    · rw [if_pos h]
      rcases List.mem_cons.mp hmem with hceq | htail
      · rw [hceq] at hrem
        rw [hrem] at h
        exact absurd h (by simp)
      · exact dispatchAux_mem action rest removed c htail hrem hact
    · rw [if_neg h]
      rcases List.mem_cons.mp hmem with hceq | htail
      · rw [hceq]
        exact List.mem_cons_self c' _
      · refine List.mem_cons_of_mem c'
          (dispatchAux_mem action rest _ c htail ?_ hact)
        simp [hrem, hact]

/-- With passive callbacks the dispatch visits the whole set
unchanged. -/
theorem dispatchAux_passive :
    ∀ (l : List Nat) (removed : Nat → Bool), (∀ x, removed x = false) →
      dispatchAux noUnsub l removed = l
  | [], _, _ => rfl
  | c :: rest, removed, h => by
    rw [dispatchAux, if_neg (by simp [h])]
    have hnext : ∀ x, (removed x || noUnsub c x) = false := by
      intro x
      simp [h, noUnsub]
    rw [dispatchAux_passive rest _ hnext]

/-- Claim C6: with passive callbacks, `emit` invokes exactly the
callbacks registered for the topic at the time of the call, in the
stored (insertion) order; a callback registered only under another
topic is never invoked; and `on` appends a new callback at the end of
the topic's set, so the stored order is registration order. -/
theorem emit_invokes_registered_in_order (r : Registry) (t u : String) (cb : Nat)
    (_hu : cb ∈ r u) (ht : cb ∉ r t) :
    emitRun noUnsub r t = r t
      ∧ cb ∉ emitRun noUnsub r t
      ∧ («on» r t cb) t = r t ++ [cb] := by
  have hemit : emitRun noUnsub r t = r t :=
    dispatchAux_passive (r t) _ (fun _ => rfl)
  refine ⟨hemit, ?_, ?_⟩
  · rw [hemit]
    exact ht
  · simp [«on», ht]

/-- Concrete witness for Claim C6: callback 7 lives only under topic
`other` and is never invoked by a publish on `score`. -/
theorem emit_invokes_registered_in_order_witness :
    7 ∈ rWitness "other"
      ∧ 7 ∉ rWitness "score"
      ∧ (emitRun noUnsub rWitness "score" = rWitness "score"
          ∧ 7 ∉ emitRun noUnsub rWitness "score"
          ∧ («on» rWitness "score" 7) "score" = rWitness "score" ++ [7]) :=
  ⟨by decide, by decide,
    emit_invokes_registered_in_order rWitness "score" "other" 7 (by decide)
      (by decide)⟩

/-- Claim C7, counterexample to snapshot-at-publish semantics: with
callbacks 1 and 2 registered, callback 1 unsubscribing callback 2
mid-dispatch means callback 2 — registered when the publish began —
is never invoked: the iteration is live, not a snapshot. -/
theorem dispatch_not_snapshot_cex :
    2 ∈ ([1, 2] : List Nat) ∧ dispatch unsubAction [1, 2] = [1] := by decide

/-- Claim C7 (amended): unsubscribing mid-dispatch cannot corrupt the
iteration — the invoked callbacks are always a subsequence of the set
as it stood when the publish began — and any callback that no
callback unsubscribes is still invoked; but a callback unsubscribed
before its turn is skipped (live iteration, not snapshot). -/
theorem dispatch_live_iteration (action : Nat → Nat → Bool) (l : List Nat) (c : Nat)
    (hc : c ∈ l) (hno : ∀ d, action d c = false) :
    List.Sublist (dispatch action l) l ∧ c ∈ dispatch action l :=
  ⟨dispatchAux_sublist action l _, dispatchAux_mem action l _ c hc rfl hno⟩

/-- Concrete witness for the amended Claim C7: callback 3 is
unsubscribed by nobody and still runs even though callback 1 removes
callback 2 mid-dispatch. -/
theorem dispatch_live_iteration_witness :
    3 ∈ ([1, 2, 3] : List Nat)
      ∧ (List.Sublist (dispatch unsubAction [1, 2, 3]) [1, 2, 3]
          ∧ 3 ∈ dispatch unsubAction [1, 2, 3]) :=
  ⟨by decide,
    dispatch_live_iteration unsubAction [1, 2, 3] 3 (by decide)
      (fun d => by simp [unsubAction])⟩

/-- Claim C8: the derived status is `ongoing` exactly when the
server-supplied end timestamp is null or strictly in the future; and
for every poll started at time `s` and end timestamp `e`, some poll
tick at or after `e` — and no later than one 500 ms interval past
`max s e` — observes `now >= endedAt` and navigates to the game-over
view. -/
theorem game_status_and_poll_detection (ea : Option Int) (now s e : Int) :
    ((updatedGameStatus ea now).1 = true
        ↔ (ea = none ∨ ∃ t, ea = some t ∧ now < t))
      ∧ ∃ k : Nat,
          e ≤ pollTick s k
            ∧ pollTick s k ≤ max s e + pollIntervalMs
            ∧ (updatedGameStatus (some e) (pollTick s k)).2
                = [Effect.navigate "/game-over"] := by
  constructor
  · cases ea with
    | none => simp [updatedGameStatus]
    | some t =>
      by_cases h : now ≥ t
      · simp only [updatedGameStatus, if_pos h]
        simp only [Option.some.injEq]
        constructor
        · intro hf
          exact absurd hf (by simp)
        · rintro (hn | ⟨u, rfl, hu⟩)
          · exact absurd hn (by simp)
          · omega
      · simp only [updatedGameStatus, if_neg h]
        simp only [Option.some.injEq]
        constructor
        · intro _
          exact Or.inr ⟨t, rfl, by omega⟩
        · intro _
          trivial
  · refine ⟨(e - s - 1).toNat / 500, ?_, ?_, ?_⟩
    · have hdm := Nat.div_add_mod (e - s - 1).toNat 500
      have hml : (e - s - 1).toNat % 500 < 500 := Nat.mod_lt _ (by norm_num)
      simp only [pollTick, pollIntervalMs]
      omega
    · have hdm := Nat.div_add_mod (e - s - 1).toNat 500
      have hml : (e - s - 1).toNat % 500 < 500 := Nat.mod_lt _ (by norm_num)
      simp only [pollTick, pollIntervalMs]
      omega
    · have hge : pollTick s ((e - s - 1).toNat / 500) ≥ e := by
        have hdm := Nat.div_add_mod (e - s - 1).toNat 500
        have hml : (e - s - 1).toNat % 500 < 500 := Nat.mod_lt _ (by norm_num)
        simp only [pollTick, pollIntervalMs]
        omega
      have hval : updatedGameStatus (some e) (pollTick s ((e - s - 1).toNat / 500))
          = (false, [Effect.navigate "/game-over"]) := by
        simp only [updatedGameStatus]
        rw [if_pos hge]
      rw [hval]

end CountInOrder
